import Mathlib

/-!
Verification of tinycss2's CSS abstract-syntax-tree module (`tinycss2/ast.py`).

A Python `str` is embedded as a list of code points (`PyStr`): any natural
number below 0x110000, lone surrogates included, since Python strings may
contain them.  Methods that can raise a Python exception are embedded as
functions into `Except PyErr _`; methods that cannot raise are plain
functions.  Node construction (`__init__`) is embedded by `*.init` smart
constructors that compute the derived fields exactly as the Python
constructors do.  Serialization (`Node.serialize` / the `_serialize_to`
methods) is embedded as a recursive function on the node tree.

The helpers from `tinycss2/serializer.py` (`serialize_identifier`,
`serialize_name`, the list serializer) and the tokenizer's unicode-range
recognizer are not part of `ast.py`; they are modelled from the
specification and are marked as such in their doc comments.
-/

namespace Tinycss2

set_option maxRecDepth 8000

/-- Python strings: sequences of code points in [0, 0x10FFFF], lone
surrogates allowed (Python `str` permits them). -/
abbrev PyStr := List Nat

/-- Python exception classes that the embedded code can raise. -/
inductive PyErr where
  | unicodeEncodeError
  | typeError
  | indexError
deriving DecidableEq

/-- Code points U+D800–U+DFFF: lone surrogates, which Python's UTF-8
encoder rejects. -/
def isSurrogate (c : Nat) : Bool := 0xD800 ≤ c && c ≤ 0xDFFF

/-- ASCII-lowercase a single code point: A–Z maps to a–z, everything else
is unchanged. -/
def asciiLowerChar (c : Nat) : Nat :=
  if 0x41 ≤ c && c ≤ 0x5A then c + 0x20 else c

/-- The mathematical ASCII-lowercase of a string, used as the
specification-side comparison point for the `lower_*` fields. -/
def asciiLowercase (s : PyStr) : PyStr := s.map asciiLowerChar

/-- Embedding of `webencodings.ascii_lower` (external dependency used by
`ast.py`): it encodes the string to UTF-8, lowercases the ASCII bytes and
decodes back.  UTF-8 encoding raises `UnicodeEncodeError` when the string
contains a lone surrogate; otherwise the effect is to lowercase exactly the
ASCII letters (multi-byte UTF-8 sequences contain no bytes in the A–Z
range). -/
def ascii_lower (s : PyStr) : Except PyErr PyStr :=
  if s.any isSurrogate then Except.error PyErr.unicodeEncodeError
  else Except.ok (asciiLowercase s)

/-- The Python string `"bad-string"`. -/
def sBadString : PyStr := [98, 97, 100, 45, 115, 116, 114, 105, 110, 103]

/-- The Python string `"bad-url"`. -/
def sBadUrl : PyStr := [98, 97, 100, 45, 117, 114, 108]

/-- The Python string `")]}"`. -/
def sClosers : PyStr := [41, 93, 125]

/-- The Python string `"eof-in-string"`. -/
def sEofInString : PyStr :=
  [101, 111, 102, 45, 105, 110, 45, 115, 116, 114, 105, 110, 103]

/-- The Python string `"eof-in-url"`. -/
def sEofInUrl : PyStr := [101, 111, 102, 45, 105, 110, 45, 117, 114, 108]

/-- The Python string `'"[bad string]\n'` written by `ParseError._serialize_to`. -/
def sBadStringOutput : PyStr :=
  [34, 91, 98, 97, 100, 32, 115, 116, 114, 105, 110, 103, 93, 10]

/-- The Python string `"url([bad url])"` written by `ParseError._serialize_to`. -/
def sBadUrlOutput : PyStr :=
  [117, 114, 108, 40, 91, 98, 97, 100, 32, 117, 114, 108, 93, 41]

/-- The Python string `"\\65 "` (backslash, 6, 5, space) written for
scientific-notation-like dimension units. -/
def sEscapeE : PyStr := [92, 54, 53, 32]

/-- The Python string `"!important"`. -/
def sImportant : PyStr := [33, 105, 109, 112, 111, 114, 116, 97, 110, 116]

/-- Does the string start with the given pattern (Python `str.startswith`)? -/
def listStartsWith : PyStr → PyStr → Bool
  | [], _ => true
  | _ :: _, [] => false
  | p :: ps, c :: cs => p == c && listStartsWith ps cs

/-- Python's `needle in haystack` on strings: substring containment. -/
def strContains (haystack needle : PyStr) : Bool :=
  listStartsWith needle haystack ||
    match haystack with
    | [] => false
    | _ :: rest => strContains rest needle

/-- Code point of the upper-case hex digit for a value below 16. -/
def hexDigitCp (d : Nat) : Nat := if d < 10 then 0x30 + d else 0x41 + (d - 10)

/-- Upper-case hexadecimal digits of a natural number (Python `'%X' % n`). -/
def toHexUpper (n : Nat) : PyStr :=
  if n < 16 then [hexDigitCp n]
  else toHexUpper (n / 16) ++ [hexDigitCp (n % 16)]
termination_by n
decreasing_by exact Nat.div_lt_self (by omega) (by omega)

/-- A CSS name code point: ASCII letters, digits, `-`, `_`, or any
non-ASCII code point. -/
def isNameCodePoint (c : Nat) : Bool :=
  (0x41 ≤ c && c ≤ 0x5A) || (0x61 ≤ c && c ≤ 0x7A) ||
    (0x30 ≤ c && c ≤ 0x39) || c == 0x2D || c == 0x5F || 0x80 ≤ c

/-- A CSS hex escape for one code point: backslash, upper-case hex digits,
one trailing space. -/
def escapeCp (c : Nat) : PyStr := [92] ++ toHexUpper c ++ [32]

/-- Modelled from the spec: `serializer.serialize_name` (serializer.py is
not under src/) — the relaxed "name" escaping used for hash values and for
the remainder of scientific-notation-like dimension units: name code
points are kept, every other code point is hex-escaped. -/
def serialize_name (s : PyStr) : PyStr :=
  s.flatMap fun c => if isNameCodePoint c then [c] else escapeCp c

/-- An ASCII decimal digit. -/
def isAsciiDigit (c : Nat) : Bool := 0x30 ≤ c && c ≤ 0x39

/-- Modelled from the spec: `serializer.serialize_identifier`
(serializer.py is not under src/) — escapes a string so that it reads back
as a CSS identifier: a leading digit, or a digit right after a single
leading `-`, is hex-escaped, a lone `-` is escaped, and the remaining code
points use name escaping. -/
def serialize_identifier (value : PyStr) : PyStr :=
  match value with
  | [] => []
  | c :: rest =>
    if isAsciiDigit c then escapeCp c ++ serialize_name rest
    else if c == 0x2D then
      match rest with
      | [] => escapeCp 0x2D
      | c2 :: rest2 =>
        if isAsciiDigit c2 then [0x2D] ++ escapeCp c2 ++ serialize_name rest2
        else [0x2D] ++ serialize_name rest
    else serialize_name value

/-- The node tree of `tinycss2/ast.py`: one constructor per concrete
`Node` subclass, carrying `source_line`, `source_column` and the stored
attributes of that class (derived attributes such as the `lower_*` fields
and `is_integer` are stored, exactly as Python stores them on the
instance; the `*.init` functions below compute them as `__init__` does).
Numeric `value` fields are embedded as rationals. -/
inductive Node where
  | parseError (line column : Nat) (kind message : PyStr)
  | comment (line column : Nat) (value : PyStr)
  | whitespace (line column : Nat) (value : PyStr)
  | literal (line column : Nat) (value : PyStr)
  | ident (line column : Nat) (value lower_value : PyStr)
  | atKeyword (line column : Nat) (value lower_value : PyStr)
  | hash (line column : Nat) (value : PyStr) (is_identifier : Bool)
  | string (line column : Nat) (value representation : PyStr)
  | url (line column : Nat) (value representation : PyStr)
  | unicodeRange (line column : Nat) (start end_ : Nat)
  | number (line column : Nat) (value : ℚ) (int_value : Option ℤ)
      (is_integer : Bool) (representation : PyStr)
  | percentage (line column : Nat) (value : ℚ) (int_value : Option ℤ)
      (is_integer : Bool) (representation : PyStr)
  | dimension (line column : Nat) (value : ℚ) (int_value : Option ℤ)
      (is_integer : Bool) (representation unit lower_unit : PyStr)
  | parentheses (line column : Nat) (content : List Node)
  | squareBrackets (line column : Nat) (content : List Node)
  | curlyBrackets (line column : Nat) (content : List Node)
  | function (line column : Nat) (name lower_name : PyStr)
      (arguments : List Node)
  | declaration (line column : Nat) (name lower_name : PyStr)
      (value : List Node) (important : Bool)
  | qualifiedRule (line column : Nat) (prelude content : List Node)
  | atRule (line column : Nat) (at_keyword lower_at_keyword : PyStr)
      (prelude : List Node) (content : Option (List Node))

/-- The `value` attribute of the token classes that have a string `value`. -/
def Node.value : Node → PyStr
  | .comment _ _ v => v
  | .whitespace _ _ v => v
  | .literal _ _ v => v
  | .ident _ _ v _ => v
  | .atKeyword _ _ v _ => v
  | .hash _ _ v _ => v
  | .string _ _ v _ => v
  | .url _ _ v _ => v
  | _ => []

/-- The `lower_value` attribute of `IdentToken` / `AtKeywordToken`. -/
def Node.lower_value : Node → PyStr
  | .ident _ _ _ lv => lv
  | .atKeyword _ _ _ lv => lv
  | _ => []

/-- The `lower_unit` attribute of `DimensionToken`. -/
def Node.lower_unit : Node → PyStr
  | .dimension _ _ _ _ _ _ _ lu => lu
  | _ => []

/-- The `lower_name` attribute of `FunctionBlock` / `Declaration`. -/
def Node.lower_name : Node → PyStr
  | .function _ _ _ ln _ => ln
  | .declaration _ _ _ ln _ _ => ln
  | _ => []

/-- The `is_integer` attribute of the numeric token classes. -/
def Node.is_integer : Node → Bool
  | .number _ _ _ _ ii _ => ii
  | .percentage _ _ _ _ ii _ => ii
  | .dimension _ _ _ _ ii _ _ _ => ii
  | _ => false

/-- The `int_value` attribute of the numeric token classes. -/
def Node.int_value : Node → Option ℤ
  | .number _ _ _ iv _ _ => iv
  | .percentage _ _ _ iv _ _ => iv
  | .dimension _ _ _ iv _ _ _ _ => iv
  | _ => none

/-- The numeric `value` attribute of the numeric token classes. -/
def Node.numValue : Node → ℚ
  | .number _ _ v _ _ _ => v
  | .percentage _ _ v _ _ _ => v
  | .dimension _ _ v _ _ _ _ _ => v
  | _ => 0

/-- The `start` attribute of `UnicodeRangeToken`. -/
def Node.rangeStart : Node → Nat
  | .unicodeRange _ _ s _ => s
  | _ => 0

/-- The `end` attribute of `UnicodeRangeToken`. -/
def Node.rangeEnd : Node → Nat
  | .unicodeRange _ _ _ e => e
  | _ => 0

/-- `ParseError.__init__`: stores `kind` and `message`. -/
def ParseError.init (line column : Nat) (kind message : PyStr) : Node :=
  Node.parseError line column kind message

/-- `IdentToken.__init__`: stores `value` and computes `lower_value` with
`ascii_lower`, falling back to the unlowered `value` when `ascii_lower`
raises `UnicodeEncodeError`. -/
def IdentToken.init (line column : Nat) (value : PyStr) : Node :=
  match ascii_lower value with
  | Except.ok lv => Node.ident line column value lv
  | Except.error _ => Node.ident line column value value

/-- `AtKeywordToken.__init__`: same lowering (and the same
`UnicodeEncodeError` fallback) as `IdentToken`. -/
def AtKeywordToken.init (line column : Nat) (value : PyStr) : Node :=
  match ascii_lower value with
  | Except.ok lv => Node.atKeyword line column value lv
  | Except.error _ => Node.atKeyword line column value value

/-- `NumberToken.__init__`: stores `value`, `int_value` and the
representation, and sets `is_integer = int_value is not None`. -/
def NumberToken.init (line column : Nat) (value : ℚ) (int_value : Option ℤ)
    (representation : PyStr) : Node :=
  Node.number line column value int_value int_value.isSome representation

/-- `PercentageToken.__init__`: same fields as `NumberToken`. -/
def PercentageToken.init (line column : Nat) (value : ℚ)
    (int_value : Option ℤ) (representation : PyStr) : Node :=
  Node.percentage line column value int_value int_value.isSome representation

/-- `DimensionToken.__init__`: like `NumberToken` plus the unit; it calls
`ascii_lower(unit)` with no exception guard, so a lone surrogate in the
unit propagates `UnicodeEncodeError` to the caller. -/
def DimensionToken.init (line column : Nat) (value : ℚ)
    (int_value : Option ℤ) (representation unit : PyStr) :
    Except PyErr Node :=
  match ascii_lower unit with
  | Except.error e => Except.error e
  | Except.ok lu =>
    Except.ok (Node.dimension line column value int_value int_value.isSome
      representation unit lu)

/-- `FunctionBlock.__init__`: stores `name` and `arguments`, computing
`lower_name` with an unguarded `ascii_lower(name)` call. -/
def FunctionBlock.init (line column : Nat) (name : PyStr)
    (arguments : List Node) : Except PyErr Node :=
  match ascii_lower name with
  | Except.error e => Except.error e
  | Except.ok ln => Except.ok (Node.function line column name ln arguments)

/-- `UnicodeRangeToken.__init__`: stores `start` and `end` unchanged. -/
def UnicodeRangeToken.init (line column start end_ : Nat) : Node :=
  Node.unicodeRange line column start end_

/-- `Declaration.__init__`: stores all six arguments unchanged — in
particular the caller-supplied `lower_name` is stored as-is, never
recomputed from `name`. -/
def Declaration.init (line column : Nat) (name lower_name : PyStr)
    (value : List Node) (important : Bool) : Node :=
  Node.declaration line column name lower_name value important

/-- `LiteralToken.__eq__` with a `str` operand:
`self.value == other or self is other`.  A node and a string are never the
same Python object, so the identity disjunct is `False` against a string
operand. -/
def LiteralToken.eq (value other : PyStr) : Bool := (value == other) || false

/-- `LiteralToken.__ne__`: `not self == other`. -/
def LiteralToken.ne (value other : PyStr) : Bool := !(LiteralToken.eq value other)

/-- `ParseError._serialize_to`: writes a fixed string per `kind` (note
that `self.kind in ')]}'` is Python substring containment) and raises
`TypeError` for any other kind. -/
def ParseError.serialize_to (kind : PyStr) : Except PyErr PyStr :=
  if kind == sBadString then Except.ok sBadStringOutput
  else if kind == sBadUrl then Except.ok sBadUrlOutput
  else if strContains sClosers kind then Except.ok kind
  else if kind == sEofInString || kind == sEofInUrl then Except.ok []
  else Except.error PyErr.typeError

/-- Is this node a `ParseError` of kind `eof-in-string`? -/
def isEofInStringError : Node → Bool
  | .parseError _ _ kind _ => kind == sEofInString
  | _ => false

/-- The condition of `DimensionToken._serialize_to`'s branch:
`unit in ('e', 'E') or unit.startswith(('e-', 'E-'))`. -/
def dimensionUnitSci (unit : PyStr) : Bool :=
  unit == [101] || unit == [69] ||
    (listStartsWith [101, 45] unit || listStartsWith [69, 45] unit)

/-- A list's last element (when present) is a member of the list. -/
theorem mem_of_getLast_eq_some {α : Type} :
    ∀ {l : List α} {a : α}, l.getLast? = some a → a ∈ l := by
  intro l
  induction l with
  | nil => intro a h; simp at h
  | cons x xs ih =>
    intro a h
    cases xs with
    | nil =>
      rw [List.getLast?_singleton] at h
      simp [Option.some_inj.mp h]
    | cons y ys =>
      rw [List.getLast?_cons_cons] at h
      exact List.mem_cons_of_mem _ (ih h)

/-- The `while isinstance(function, FunctionBlock):` loop at the end of
`FunctionBlock._serialize_to`, entered on the arguments of the current
function object.  `arguments[-1]` on an empty list raises `IndexError`;
a trailing `eof-in-string` parse error returns from the method (`true`:
the closing `)` is omitted); any other non-function last argument exits
the loop (`false`: the `)` is written). -/
def functionLoop (args : List Node) : Except PyErr Bool :=
  match h : args.getLast? with
  | none => Except.error PyErr.indexError
  | some last =>
    if isEofInStringError last then Except.ok true
    else
      match last with
      | .function _ _ _ _ args2 =>
        have hmem : Node.function _ _ _ _ args2 ∈ args :=
          mem_of_getLast_eq_some h
        have : sizeOf args2 < sizeOf args := by
          have h1 := List.sizeOf_lt_of_mem hmem
          simp only [Node.function.sizeOf_spec] at h1
          omega
        functionLoop args2
      | _ => Except.ok false
termination_by sizeOf args

mutual

/-- The `_serialize_to` methods of every `Node` subclass in `ast.py`,
returning the concatenation of the written chunks, or the Python
exception the method raises. -/
def Node.serialize_to : Node → Except PyErr PyStr
  | .parseError _ _ kind _ => ParseError.serialize_to kind
  | .comment _ _ value => Except.ok ([47, 42] ++ value ++ [42, 47])
  | .whitespace _ _ value => Except.ok value
  | .literal _ _ value => Except.ok value
  | .ident _ _ value _ => Except.ok (serialize_identifier value)
  | .atKeyword _ _ value _ => Except.ok ([64] ++ serialize_identifier value)
  | .hash _ _ value is_identifier =>
    Except.ok ([35] ++
      (if is_identifier then serialize_identifier value
       else serialize_name value))
  | .string _ _ _ representation => Except.ok representation
  | .url _ _ _ representation => Except.ok representation
  | .unicodeRange _ _ start end_ =>
    Except.ok (if end_ == start then [85, 43] ++ toHexUpper start
      else [85, 43] ++ toHexUpper start ++ [45] ++ toHexUpper end_)
  | .number _ _ _ _ _ representation => Except.ok representation
  | .percentage _ _ _ _ _ representation =>
    Except.ok (representation ++ [37])
  | .dimension _ _ _ _ _ representation unit _ =>
    Except.ok (representation ++
      (if dimensionUnitSci unit then sEscapeE ++ serialize_name (unit.drop 1)
       else serialize_identifier unit))
  | .parentheses _ _ content =>
    match serializeList content with
    | Except.error e => Except.error e
    | Except.ok inner => Except.ok ([40] ++ inner ++ [41])
  | .squareBrackets _ _ content =>
    match serializeList content with
    | Except.error e => Except.error e
    | Except.ok inner => Except.ok ([91] ++ inner ++ [93])
  | .curlyBrackets _ _ content =>
    match serializeList content with
    | Except.error e => Except.error e
    | Except.ok inner => Except.ok ([123] ++ inner ++ [125])
  | .function _ _ name _ arguments =>
    match serializeList arguments with
    | Except.error e => Except.error e
    | Except.ok inner =>
      if arguments.isEmpty then
        Except.ok (serialize_identifier name ++ [40] ++ inner ++ [41])
      else
        match functionLoop arguments with
        | Except.error e => Except.error e
        | Except.ok true =>
          Except.ok (serialize_identifier name ++ [40] ++ inner)
        | Except.ok false =>
          Except.ok (serialize_identifier name ++ [40] ++ inner ++ [41])
  | .declaration _ _ name _ value important =>
    match serializeList value with
    | Except.error e => Except.error e
    | Except.ok inner =>
      Except.ok (serialize_identifier name ++ [58] ++ inner ++
        (if important then sImportant else []))
  | .qualifiedRule _ _ prelude content =>
    match serializeList prelude with
    | Except.error e => Except.error e
    | Except.ok pin =>
      match serializeList content with
      | Except.error e => Except.error e
      | Except.ok cin => Except.ok (pin ++ [123] ++ cin ++ [125])
  | .atRule _ _ at_keyword _ prelude none =>
    match serializeList prelude with
    | Except.error e => Except.error e
    | Except.ok pin =>
      Except.ok ([64] ++ serialize_identifier at_keyword ++ pin ++ [59])
  | .atRule _ _ at_keyword _ prelude (some cont) =>
    match serializeList prelude with
    | Except.error e => Except.error e
    | Except.ok pin =>
      match serializeList cont with
      | Except.error e => Except.error e
      | Except.ok cin =>
        Except.ok ([64] ++ serialize_identifier at_keyword ++ pin ++
          [123] ++ cin ++ [125])

/-- Modelled from the spec: `serializer._serialize_to` on a list of nodes
(serializer.py is not under src/) — walks the list and writes each node's
textual form in order. -/
def serializeList : List Node → Except PyErr PyStr
  | [] => Except.ok []
  | n :: rest =>
    match Node.serialize_to n with
    | Except.error e => Except.error e
    | Except.ok s =>
      match serializeList rest with
      | Except.error e => Except.error e
      | Except.ok r => Except.ok (s ++ r)

end

/-- `Node.serialize`: collects the chunks written by `_serialize_to` and
joins them — in this embedding, identical to `serialize_to`. -/
def Node.serialize (n : Node) : Except PyErr PyStr := Node.serialize_to n

/-- The numeric value of a hexadecimal digit code point, or `none`. -/
def hexVal (c : Nat) : Option Nat :=
  if 0x30 ≤ c && c ≤ 0x39 then some (c - 0x30)
  else if 0x41 ≤ c && c ≤ 0x46 then some (c - 0x41 + 10)
  else if 0x61 ≤ c && c ≤ 0x66 then some (c - 0x61 + 10)
  else none

/-- Take up to `n` leading hexadecimal digits off a string, returning
their values and the rest of the string. -/
def takeHexDigits : Nat → PyStr → List Nat × PyStr
  | 0, s => ([], s)
  | _ + 1, [] => ([], [])
  | n + 1, c :: cs =>
    match hexVal c with
    | some d =>
      let r := takeHexDigits n cs
      (d :: r.1, r.2)
    | none => ([], c :: cs)

/-- Count up to `n` leading `?` code points, returning the count and the
rest of the string. -/
def takeQuestionMarks : Nat → PyStr → Nat × PyStr
  | 0, s => (0, s)
  | _ + 1, [] => (0, [])
  | n + 1, c :: cs =>
    if c == 0x3F then
      let r := takeQuestionMarks n cs
      (r.1 + 1, r.2)
    else (0, c :: cs)

/-- The value of a big-endian list of hexadecimal digit values. -/
def hexListVal (ds : List Nat) : Nat := ds.foldl (fun a d => 16 * a + d) 0

/-- Modelled from the spec: the tokenizer's unicode-range recognizer (the
tokenizer is not under src/).  Given the text after the `U+` prefix, it
accepts 1–6 hex digits, then either optional `?` wildcards up to six total
positions (read as `0` for the start of the range and `F` for the end), or
a second run of 1–6 hex digits after a `-` giving the end explicitly;
otherwise start and end are both the single value.  Returns `none` when no
hex digit is present. -/
def consume_unicode_range (s : PyStr) : Option (Nat × Nat) :=
  let p := takeHexDigits 6 s
  if p.1.isEmpty then none
  else
    let q := takeQuestionMarks (6 - p.1.length) p.2
    if 0 < q.1 then
      some (hexListVal (p.1 ++ List.replicate q.1 0),
        hexListVal (p.1 ++ List.replicate q.1 15))
    else
      match q.2 with
      | 0x2D :: rest =>
        let p2 := takeHexDigits 6 rest
        if p2.1.isEmpty then some (hexListVal p.1, hexListVal p.1)
        else some (hexListVal p.1, hexListVal p2.1)
      | _ => some (hexListVal p.1, hexListVal p.1)

/-- A unicode-range token as produced by the system: the recognizer's
start/end pair stored unchanged by `UnicodeRangeToken.__init__`. -/
def tokenizeUnicodeRange (line column : Nat) (s : PyStr) : Option Node :=
  (consume_unicode_range s).map fun p =>
    UnicodeRangeToken.init line column p.1 p.2

/-- A successful `hexVal` is below 16. -/
theorem hexVal_lt {c d : Nat} (h : hexVal c = some d) : d < 16 := by
  unfold hexVal at h
  split at h
  next hc => simp only [Option.some_inj] at h; simp only [Bool.and_eq_true,
    decide_eq_true_eq] at hc; omega
  next =>
    split at h
    next hc => simp only [Option.some_inj] at h; simp only [Bool.and_eq_true,
      decide_eq_true_eq] at hc; omega
    next =>
      split at h
      next hc => simp only [Option.some_inj] at h; simp only [Bool.and_eq_true,
        decide_eq_true_eq] at hc; omega
      next => exact absurd h (by simp)

/-- `takeHexDigits n` returns at most `n` digits. -/
theorem takeHexDigits_length :
    ∀ (n : Nat) (s : PyStr), (takeHexDigits n s).1.length ≤ n := by
  intro n
  induction n with
  | zero => intro s; simp [takeHexDigits]
  | succ m ih =>
    intro s
    cases s with
    | nil => simp [takeHexDigits]
    | cons c cs =>
      unfold takeHexDigits
      cases h : hexVal c with
      | none => simp
      | some d =>
        simp only [List.length_cons]
        exact Nat.succ_le_succ (ih cs)

/-- Every digit returned by `takeHexDigits` is below 16. -/
theorem takeHexDigits_lt :
    ∀ (n : Nat) (s : PyStr) (d : Nat), d ∈ (takeHexDigits n s).1 → d < 16 := by
  intro n
  induction n with
  | zero => intro s d hd; simp [takeHexDigits] at hd
  | succ m ih =>
    intro s d hd
    cases s with
    | nil => simp [takeHexDigits] at hd
    | cons c cs =>
      unfold takeHexDigits at hd
      cases h : hexVal c with
      | none => rw [h] at hd; simp at hd
      | some v =>
        rw [h] at hd
        simp only [List.mem_cons] at hd
        cases hd with
        | inl he => exact he ▸ hexVal_lt h
        | inr hm => exact ih cs d hm

/-- `takeQuestionMarks n` counts at most `n` question marks. -/
theorem takeQuestionMarks_le :
    ∀ (n : Nat) (s : PyStr), (takeQuestionMarks n s).1 ≤ n := by
  intro n
  induction n with
  | zero => intro s; simp [takeQuestionMarks]
  | succ m ih =>
    intro s
    cases s with
    | nil => simp [takeQuestionMarks]
    | cons c cs =>
      unfold takeQuestionMarks
      split
      · exact Nat.succ_le_succ (ih cs)
      · simp

/-- Folding hex digits below 16 keeps the value below
`(acc + 1) * 16 ^ length`. -/
theorem hexFold_lt :
    ∀ (ds : List Nat) (acc : Nat), (∀ d ∈ ds, d < 16) →
      List.foldl (fun a d => 16 * a + d) acc ds < (acc + 1) * 16 ^ ds.length := by
  intro ds
  induction ds with
  | nil => intro acc _; simp only [List.foldl_nil, List.length_nil, pow_zero,
      mul_one]; exact Nat.lt_succ_self acc
  | cons d ds ih =>
    intro acc hall
    have hd : d < 16 := hall d (List.mem_cons_self d ds)
    have hrest : ∀ x ∈ ds, x < 16 := fun x hx => hall x (List.mem_cons_of_mem d hx)
    have h1 := ih (16 * acc + d) hrest
    have h2 : (16 * acc + d + 1) * 16 ^ ds.length ≤ (acc + 1) * 16 ^ (ds.length + 1) := by
      have : 16 * acc + d + 1 ≤ (acc + 1) * 16 := by omega
      calc (16 * acc + d + 1) * 16 ^ ds.length
        ≤ (acc + 1) * 16 * 16 ^ ds.length := Nat.mul_le_mul_right _ this
        _ = (acc + 1) * 16 ^ (ds.length + 1) := by ring
    simp only [List.foldl_cons, List.length_cons]
    exact Nat.lt_of_lt_of_le h1 h2

/-- A list of at most six hex-digit values encodes a value below 16^6. -/
theorem hexListVal_lt {ds : List Nat} (hlen : ds.length ≤ 6)
    (hall : ∀ d ∈ ds, d < 16) : hexListVal ds < 16777216 := by
  have h1 := hexFold_lt ds 0 hall
  have h2 : 16 ^ ds.length ≤ 16 ^ 6 := Nat.pow_le_pow_right (by omega) hlen
  calc hexListVal ds < (0 + 1) * 16 ^ ds.length := h1
    _ = 16 ^ ds.length := by ring
    _ ≤ 16 ^ 6 := h2
    _ = 16777216 := by norm_num

/-- Every result of the unicode-range recognizer is below 16^6. -/
theorem consume_unicode_range_bounds {s : PyStr} {st en : Nat}
    (h : consume_unicode_range s = some (st, en)) :
    st < 16777216 ∧ en < 16777216 := by
  unfold consume_unicode_range at h
  simp only [] at h
  split at h
  · exact absurd h (by simp)
  · have hlen := takeHexDigits_length 6 s
    have hall := takeHexDigits_lt 6 s
    split at h
    · -- wildcard branch
      have hq := takeQuestionMarks_le (6 - (takeHexDigits 6 s).1.length)
        (takeHexDigits 6 s).2
      have hlen2 : ((takeHexDigits 6 s).1 ++
          List.replicate (takeQuestionMarks (6 - (takeHexDigits 6 s).1.length)
            (takeHexDigits 6 s).2).1 0).length ≤ 6 := by
        simp only [List.length_append, List.length_replicate]
        omega
      have hlen3 : ((takeHexDigits 6 s).1 ++
          List.replicate (takeQuestionMarks (6 - (takeHexDigits 6 s).1.length)
            (takeHexDigits 6 s).2).1 15).length ≤ 6 := by
        simp only [List.length_append, List.length_replicate]
        omega
      have hall2 : ∀ d ∈ (takeHexDigits 6 s).1 ++
          List.replicate (takeQuestionMarks (6 - (takeHexDigits 6 s).1.length)
            (takeHexDigits 6 s).2).1 0, d < 16 := by
        intro d hd
        rcases List.mem_append.mp hd with hd | hd
        · exact hall d hd
        · have := List.eq_of_mem_replicate hd; omega
      have hall3 : ∀ d ∈ (takeHexDigits 6 s).1 ++
          List.replicate (takeQuestionMarks (6 - (takeHexDigits 6 s).1.length)
            (takeHexDigits 6 s).2).1 15, d < 16 := by
        intro d hd
        rcases List.mem_append.mp hd with hd | hd
        · exact hall d hd
        · have := List.eq_of_mem_replicate hd; omega
      have hst := hexListVal_lt hlen2 hall2
      have hen := hexListVal_lt hlen3 hall3
      cases h
      exact ⟨hst, hen⟩
    · -- explicit-range or single-value branch
      have hone : hexListVal (takeHexDigits 6 s).1 < 16777216 :=
        hexListVal_lt hlen hall
      split at h
      next rest heq =>
        split at h
        · cases h; exact ⟨hone, hone⟩
        · have htwo : hexListVal (takeHexDigits 6 rest).1 < 16777216 :=
            hexListVal_lt (takeHexDigits_length 6 rest) (takeHexDigits_lt 6 rest)
          cases h
          exact ⟨hone, htwo⟩
      next =>
        cases h
        exact ⟨hone, hone⟩

/-- C1: the claim states that no public-API operation raises; evaluating
the code shows the opposite at the claim's own highlighted inputs:
serializing a `FunctionBlock` whose last argument is a `FunctionBlock`
with an empty arguments list raises `IndexError` (from `arguments[-1]`),
serializing a `ParseError` whose kind is outside the serializable set
raises `TypeError`, and the `DimensionToken` / `FunctionBlock`
constructors propagate `UnicodeEncodeError` from their unguarded
`ascii_lower` calls when given a lone surrogate. -/
theorem C1_exceptions_raised :
    Except.bind (FunctionBlock.init 1 1 [98] [])
      (fun g => Except.bind (FunctionBlock.init 1 1 [97] [g]) Node.serialize) =
        Except.error PyErr.indexError ∧
    Node.serialize (ParseError.init 1 1 [120] []) =
      Except.error PyErr.typeError ∧
    DimensionToken.init 1 1 0 none [] [55296] =
      Except.error PyErr.unicodeEncodeError ∧
    FunctionBlock.init 1 1 [55296] [] =
      Except.error PyErr.unicodeEncodeError := by
  refine ⟨?_, rfl, rfl, rfl⟩
  simp [FunctionBlock.init, ascii_lower, asciiLowercase, isSurrogate,
    asciiLowerChar, Except.bind, Node.serialize, Node.serialize_to,
    serializeList, functionLoop, isEofInStringError, serialize_identifier,
    serialize_name, isNameCodePoint, isAsciiDigit, sEofInString]

/-- C2 counterexample: for the value `"A" + lone surrogate U+D800`, the
constructed `IdentToken`'s `lower_value` is the value unchanged (the
`UnicodeEncodeError` fallback), which differs from the ASCII-lowercase of
the value. -/
theorem C2_counterexample :
    (IdentToken.init 1 1 [65, 55296]).lower_value = [65, 55296] ∧
    asciiLowercase [65, 55296] = [97, 55296] ∧
    ([65, 55296] : PyStr) ≠ [97, 55296] :=
  ⟨rfl, rfl, by decide⟩

/-- C2 (amended): for every cased-field value containing no lone
surrogate, the lowered field (`lower_value` of `IdentToken` and
`AtKeywordToken`, `lower_unit` of `DimensionToken`, `lower_name` of
`FunctionBlock`) equals the ASCII-lowercase of the cased field. -/
theorem C2_lower_fields (l c : Nat) (v u n : PyStr) (val : ℚ)
    (iv : Option ℤ) (rep : PyStr) (args : List Node)
    (hv : v.any isSurrogate = false) (hu : u.any isSurrogate = false)
    (hn : n.any isSurrogate = false) :
    (IdentToken.init l c v).lower_value = asciiLowercase v ∧
    (AtKeywordToken.init l c v).lower_value = asciiLowercase v ∧
    (DimensionToken.init l c val iv rep u).map Node.lower_unit =
      Except.ok (asciiLowercase u) ∧
    (FunctionBlock.init l c n args).map Node.lower_name =
      Except.ok (asciiLowercase n) := by
  have hv2 : ascii_lower v = Except.ok (asciiLowercase v) := by
    simp [ascii_lower, hv]
  have hu2 : ascii_lower u = Except.ok (asciiLowercase u) := by
    simp [ascii_lower, hu]
  have hn2 : ascii_lower n = Except.ok (asciiLowercase n) := by
    simp [ascii_lower, hn]
  refine ⟨?_, ?_, ?_, ?_⟩ <;>
    simp [IdentToken.init, AtKeywordToken.init, DimensionToken.init,
      FunctionBlock.init, hv2, hu2, hn2, Node.lower_value, Node.lower_unit,
      Node.lower_name, Except.map]

/-- C2 witness: the amended theorem applied at the surrogate-free value
`"A"`. -/
theorem C2_lower_fields_witness :
    (IdentToken.init 1 1 [65]).lower_value = asciiLowercase [65] ∧
    (AtKeywordToken.init 1 1 [65]).lower_value = asciiLowercase [65] ∧
    (DimensionToken.init 1 1 0 none [] [65]).map Node.lower_unit =
      Except.ok (asciiLowercase [65]) ∧
    (FunctionBlock.init 1 1 [65] []).map Node.lower_name =
      Except.ok (asciiLowercase [65]) :=
  C2_lower_fields 1 1 [65] [65] [65] 0 none [] [] rfl rfl rfl

/-- C3: a ParseError serializes to exactly `"[bad string]` plus a newline
for kind `bad-string`, `url([bad url])` for `bad-url`, the single closer
character for kinds `)`, `]`, `}`, and the empty string for
`eof-in-string` and `eof-in-url`. -/
theorem C3_parse_error_serialization (l c : Nat) (msg : PyStr) :
    Node.serialize (ParseError.init l c sBadString msg) =
      Except.ok [34, 91, 98, 97, 100, 32, 115, 116, 114, 105, 110, 103, 93, 10] ∧
    Node.serialize (ParseError.init l c sBadUrl msg) =
      Except.ok [117, 114, 108, 40, 91, 98, 97, 100, 32, 117, 114, 108, 93, 41] ∧
    Node.serialize (ParseError.init l c [41] msg) = Except.ok [41] ∧
    Node.serialize (ParseError.init l c [93] msg) = Except.ok [93] ∧
    Node.serialize (ParseError.init l c [125] msg) = Except.ok [125] ∧
    Node.serialize (ParseError.init l c sEofInString msg) = Except.ok [] ∧
    Node.serialize (ParseError.init l c sEofInUrl msg) = Except.ok [] :=
  ⟨rfl, rfl, rfl, rfl, rfl, rfl, rfl⟩

/-- Unfolding of the serializer on a function node, as written in
`FunctionBlock._serialize_to`. -/
theorem serialize_function_eq (l c : Nat) (name ln : PyStr)
    (args : List Node) :
    Node.serialize_to (Node.function l c name ln args) =
      match serializeList args with
      | Except.error e => Except.error e
      | Except.ok inner =>
        if args.isEmpty then
          Except.ok (serialize_identifier name ++ [40] ++ inner ++ [41])
        else
          match functionLoop args with
          | Except.error e => Except.error e
          | Except.ok true =>
            Except.ok (serialize_identifier name ++ [40] ++ inner)
          | Except.ok false =>
            Except.ok (serialize_identifier name ++ [40] ++ inner ++ [41]) :=
  rfl

/-- C4: a FunctionBlock whose arguments end with an `eof-in-string`
ParseError serializes to the escaped name, the opening parenthesis and the
serialized arguments, with no trailing `)`. -/
theorem C4_function_trailing_eof (l c le ce : Nat) (name ln m out : PyStr)
    (pre : List Node)
    (h : serializeList (pre ++ [Node.parseError le ce sEofInString m]) =
      Except.ok out) :
    Node.serialize
        (Node.function l c name ln
          (pre ++ [Node.parseError le ce sEofInString m])) =
      Except.ok (serialize_identifier name ++ [40] ++ out) := by
  have hne : (pre ++ [Node.parseError le ce sEofInString m]).isEmpty = false := by
    cases pre <;> simp [List.isEmpty]
  have hloop : functionLoop (pre ++ [Node.parseError le ce sEofInString m]) =
      Except.ok true := by
    rw [functionLoop.eq_def]
    split
    · rename_i hnone
      rw [List.getLast?_concat] at hnone
      exact absurd hnone (by simp)
    · rename_i last hlast
      rw [List.getLast?_concat] at hlast
      have hl : Node.parseError le ce sEofInString m = last :=
        Option.some_inj.mp hlast
      have he : isEofInStringError last = true := by
        rw [← hl]; simp [isEofInStringError]
      rw [if_pos he]
  simp only [Node.serialize, serialize_function_eq, h, hne, hloop,
    Bool.false_eq_true, if_false]

/-- C4 witness: the theorem applied to `a(` followed by a single
`eof-in-string` error argument. -/
theorem C4_function_trailing_eof_witness :
    Node.serialize
        (Node.function 1 1 [97] [97]
          ([] ++ [Node.parseError 2 2 sEofInString []])) =
      Except.ok (serialize_identifier [97] ++ [40] ++ []) :=
  C4_function_trailing_eof 1 1 2 2 [97] [97] [] [] [] rfl

/-- C5: a DimensionToken whose unit is exactly `e` or `E` or starts with
`e-` or `E-` serializes as the representation, the escape `\65 `
(backslash, 6, 5, space), and the name-escaped remainder of the unit; any
other unit is emitted via identifier escaping after the representation. -/
theorem C5_dimension_unit_escape (l c : Nat) (v : ℚ) (iv : Option ℤ)
    (ii : Bool) (rep unit lu : PyStr) :
    (unit = [101] ∨ unit = [69] ∨ listStartsWith [101, 45] unit = true ∨
        listStartsWith [69, 45] unit = true →
      Node.serialize (Node.dimension l c v iv ii rep unit lu) =
        Except.ok (rep ++ [92, 54, 53, 32] ++ serialize_name (unit.drop 1))) ∧
    (¬(unit = [101] ∨ unit = [69] ∨ listStartsWith [101, 45] unit = true ∨
        listStartsWith [69, 45] unit = true) →
      Node.serialize (Node.dimension l c v iv ii rep unit lu) =
        Except.ok (rep ++ serialize_identifier unit)) := by
  have key : dimensionUnitSci unit = true ↔
      (unit = [101] ∨ unit = [69] ∨ listStartsWith [101, 45] unit = true ∨
        listStartsWith [69, 45] unit = true) := by
    simp only [dimensionUnitSci, Bool.or_eq_true, beq_iff_eq]
    tauto
  constructor
  · intro h
    have hb : dimensionUnitSci unit = true := key.mpr h
    simp [Node.serialize, Node.serialize_to, hb, sEscapeE, List.append_assoc]
  · intro h
    have hb : dimensionUnitSci unit = false :=
      Bool.eq_false_iff.mpr fun hx => h (key.mp hx)
    simp [Node.serialize, Node.serialize_to, hb]

/-- C5 witness: the theorem applied at the units `e` (escaped branch) and
`px` (identifier branch). -/
theorem C5_dimension_unit_escape_witness :
    Node.serialize (Node.dimension 1 1 3 (some 3) true [51] [101] [101]) =
      Except.ok ([51] ++ [92, 54, 53, 32] ++ serialize_name ([101].drop 1)) ∧
    Node.serialize
        (Node.dimension 1 1 3 (some 3) true [51] [112, 120] [112, 120]) =
      Except.ok ([51] ++ serialize_identifier [112, 120]) :=
  ⟨(C5_dimension_unit_escape 1 1 3 (some 3) true [51] [101] [101]).1
      (Or.inl rfl),
    (C5_dimension_unit_escape 1 1 3 (some 3) true [51] [112, 120]
      [112, 120]).2 (by decide)⟩

/-- C6 counterexample: `NumberToken(1, 1, 5/2, 3, "2")` has
`is_integer = True` (because `int_value` is present) while its `value`
`5/2` differs from its `int_value` `3` as real numbers — the constructor
stores both arguments unchanged without checking consistency. -/
theorem C6_counterexample :
    (NumberToken.init 1 1 (5 / 2 : ℚ) (some 3) [50]).is_integer = true ∧
    (NumberToken.init 1 1 (5 / 2 : ℚ) (some 3) [50]).int_value = some 3 ∧
    (NumberToken.init 1 1 (5 / 2 : ℚ) (some 3) [50]).numValue ≠
      ((3 : ℤ) : ℚ) := by
  refine ⟨rfl, rfl, ?_⟩
  show (5 / 2 : ℚ) ≠ ((3 : ℤ) : ℚ)
  norm_num

/-- C6 (amended): for any constructor arguments, `is_integer` is true iff
`int_value` is present; the constructors store `value` and `int_value`
unchanged, so `value = int_value` holds only when the caller already
passes equal numbers (the tokenizer does; the constructor does not check
it). -/
theorem C6_int_value_storage (l c : Nat) (v : ℚ) (iv : Option ℤ)
    (rep u : PyStr) (hu : u.any isSurrogate = false) :
    (NumberToken.init l c v iv rep).is_integer = iv.isSome ∧
    (NumberToken.init l c v iv rep).numValue = v ∧
    (NumberToken.init l c v iv rep).int_value = iv ∧
    (PercentageToken.init l c v iv rep).is_integer = iv.isSome ∧
    (PercentageToken.init l c v iv rep).numValue = v ∧
    (PercentageToken.init l c v iv rep).int_value = iv ∧
    (DimensionToken.init l c v iv rep u).map Node.is_integer =
      Except.ok iv.isSome ∧
    (DimensionToken.init l c v iv rep u).map Node.numValue = Except.ok v ∧
    (DimensionToken.init l c v iv rep u).map Node.int_value =
      Except.ok iv := by
  have hu2 : ascii_lower u = Except.ok (asciiLowercase u) := by
    simp [ascii_lower, hu]
  refine ⟨rfl, rfl, rfl, rfl, rfl, rfl, ?_, ?_, ?_⟩ <;>
    simp [DimensionToken.init, hu2, Node.is_integer, Node.numValue,
      Node.int_value, Except.map]

/-- C6 witness: the amended theorem applied at `value = 5/2`,
`int_value = None`, unit `"x"`. -/
theorem C6_int_value_storage_witness :
    (NumberToken.init 1 1 (5 / 2 : ℚ) none []).is_integer =
      (none : Option ℤ).isSome ∧
    (NumberToken.init 1 1 (5 / 2 : ℚ) none []).numValue = (5 / 2 : ℚ) ∧
    (NumberToken.init 1 1 (5 / 2 : ℚ) none []).int_value = none ∧
    (PercentageToken.init 1 1 (5 / 2 : ℚ) none []).is_integer =
      (none : Option ℤ).isSome ∧
    (PercentageToken.init 1 1 (5 / 2 : ℚ) none []).numValue = (5 / 2 : ℚ) ∧
    (PercentageToken.init 1 1 (5 / 2 : ℚ) none []).int_value = none ∧
    (DimensionToken.init 1 1 (5 / 2 : ℚ) none [] [120]).map Node.is_integer =
      Except.ok (none : Option ℤ).isSome ∧
    (DimensionToken.init 1 1 (5 / 2 : ℚ) none [] [120]).map Node.numValue =
      Except.ok (5 / 2 : ℚ) ∧
    (DimensionToken.init 1 1 (5 / 2 : ℚ) none [] [120]).map Node.int_value =
      Except.ok none :=
  C6_int_value_storage 1 1 (5 / 2 : ℚ) none [] [120] rfl

/-- C7: a LiteralToken compares equal to a bare string exactly when its
`value` equals that string, and `!=` is the negation of `==`. -/
theorem C7_literal_equality (l c : Nat) (v s : PyStr) :
    (LiteralToken.eq ((Node.literal l c v).value) s = true ↔
      (Node.literal l c v).value = s) ∧
    LiteralToken.ne ((Node.literal l c v).value) s =
      !LiteralToken.eq ((Node.literal l c v).value) s := by
  constructor
  · simp [LiteralToken.eq, Node.value]
  · rfl

/-- C8: StringToken, URLToken and NumberToken serialize to exactly their
representation; PercentageToken to the representation followed by `%`;
and a DimensionToken's serialization starts with the representation
verbatim. -/
theorem C8_representation_serialization (l c : Nat) (v rep : PyStr)
    (q : ℚ) (iv : Option ℤ) (ii : Bool) (unit lu : PyStr) :
    Node.serialize (Node.string l c v rep) = Except.ok rep ∧
    Node.serialize (Node.url l c v rep) = Except.ok rep ∧
    Node.serialize (Node.number l c q iv ii rep) = Except.ok rep ∧
    Node.serialize (Node.percentage l c q iv ii rep) =
      Except.ok (rep ++ [37]) ∧
    ∃ rest, Node.serialize (Node.dimension l c q iv ii rep unit lu) =
      Except.ok (rep ++ rest) :=
  ⟨rfl, rfl, rfl, rfl, ⟨_, rfl⟩⟩

/-- C9 counterexample: the unicode-range recognizer applied to the inputs
`110000` and `5-3` (after `U+`) produces tokens with
`end = 0x110000 > 0x10FFFF` and with `start = 5 > end = 3`, refuting both
the upper bound and the ordering of the claimed invariant. -/
theorem C9_counterexample :
    tokenizeUnicodeRange 1 1 [49, 49, 48, 48, 48, 48] =
      some (Node.unicodeRange 1 1 1114112 1114112) ∧
    ¬(1114112 : Nat) ≤ 1114111 ∧
    tokenizeUnicodeRange 1 1 [53, 45, 51] =
      some (Node.unicodeRange 1 1 5 3) ∧
    ¬(5 : Nat) ≤ 3 :=
  ⟨rfl, by omega, rfl, by omega⟩

/-- C9 (amended): every unicode-range token produced by the recognizer
has `start` and `end` below 16^6 = 0x1000000 (at most six hex digits
each); neither `end ≤ 0x10FFFF` nor `start ≤ end` is guaranteed. -/
theorem C9_range_bounds (l c : Nat) (s : PyStr) (n : Node)
    (h : tokenizeUnicodeRange l c s = some n) :
    n.rangeStart < 16777216 ∧ n.rangeEnd < 16777216 := by
  unfold tokenizeUnicodeRange at h
  cases hc : consume_unicode_range s with
  | none => rw [hc] at h; exact absurd h (by simp)
  | some p =>
    rw [hc] at h
    have hb : p.1 < 16777216 ∧ p.2 < 16777216 :=
      @consume_unicode_range_bounds s p.1 p.2 (by rw [hc])
    simp only [Option.map_some', Option.some_inj] at h
    rw [← h]
    exact hb

/-- C9 witness: the amended theorem applied at the input `1`. -/
theorem C9_range_bounds_witness :
    (Node.unicodeRange 1 1 1 1).rangeStart < 16777216 ∧
    (Node.unicodeRange 1 1 1 1).rangeEnd < 16777216 :=
  C9_range_bounds 1 1 [49] (Node.unicodeRange 1 1 1 1) rfl

/-- C10: the Declaration constructor stores the caller-supplied
`lower_name` unchanged (so a Declaration whose `lower_name` differs from
the ASCII-lowercase of its `name` can be constructed), and serialization
depends on `name` only, never on `lower_name`. -/
theorem C10_declaration_lower_name (l c : Nat) (name lower_name ln2 : PyStr)
    (value : List Node) (important : Bool) :
    Declaration.init l c name lower_name value important =
      Node.declaration l c name lower_name value important ∧
    (Declaration.init l c name lower_name value important).lower_name =
      lower_name ∧
    Node.serialize (Node.declaration l c name lower_name value important) =
      Node.serialize (Node.declaration l c name ln2 value important) ∧
    (Declaration.init 1 1 [65] [122] [] false).lower_name ≠
      asciiLowercase [65] ∧
    Node.serialize (Declaration.init 1 1 [65] [122] [] false) =
      Except.ok [65, 58] :=
  ⟨rfl, rfl, rfl, by decide, rfl⟩

end Tinycss2
